import Mathlib

/-!
Shallow embedding of the `sebastian` repository's issue-query subsystem
(`src/infrastructure/jira/client.py`) and turn-execution loop
(`src/agents/specialists/jira_analyzer/issue_analyzer_agent.py`).

Raw tracker records are loosely typed JSON-like values; we model them with a
small `JSON` type together with the Python dictionary/truthiness semantics the
code relies on (`dict.get`, `if not x`, `x or y`).  Operations that can raise
a Python exception are embedded in `Except PyError`.
-/

namespace Sebastian

/-- JSON-like values as produced by Python's `json` decoding of tracker
responses: `null`, booleans, integers, strings, arrays and objects
(association lists of string keys). -/
inductive JSON where
  | null
  | bool (b : Bool)
  | num (n : Int)
  | str (s : String)
  | arr (xs : List JSON)
  | obj (fields : List (String × JSON))

/-- Python exceptions that the embedded code can raise. -/
inductive PyError where
  | requestException
  | attributeError
  | typeError
deriving DecidableEq

/-- Python truthiness of a JSON-like value: `None`, `False`, `0`, `""`, `[]`
and `{}` are falsy, everything else truthy. -/
def JSON.truthy : JSON → Bool
  | .null => false
  | .bool b => b
  | .num n => decide (n ≠ 0)
  | .str s => decide (s ≠ "")
  | .arr [] => false
  | .arr (_ :: _) => true
  | .obj [] => false
  | .obj (_ :: _) => true

/-- First-match lookup in an association list (Python dict lookup). -/
def lookupField : List (String × JSON) → String → Option JSON
  | [], _ => none
  | (k, v) :: rest, key => if k = key then some v else lookupField rest key

/-- Python `d.get(k)`: on a dict, the stored value, or `None` when the key is
absent; on any non-dict value it raises `AttributeError`. -/
def pyGet : JSON → String → Except PyError JSON
  | .obj fs, k => .ok ((lookupField fs k).getD .null)
  | _, _ => .error .attributeError

/-- Python `d.get(k, default)`: on a dict, the stored value, or `default` when
the key is absent; on any non-dict value it raises `AttributeError`. -/
def pyGetD : JSON → String → JSON → Except PyError JSON
  | .obj fs, k, dflt => .ok ((lookupField fs k).getD dflt)
  | _, _, _ => .error .attributeError

/-- Python `str(v)` as used by f-string interpolation of a JSON-like value. -/
def pyStr : JSON → String
  | .null => "None"
  | .bool true => "True"
  | .bool false => "False"
  | .num n => toString n
  | .str s => s
  | .arr _ => "[...]"
  | .obj _ => "{...}"

/-- Embedding of `JiraClient._get_user_display_name`: a falsy user value
(absent, `None`, or an empty object) yields the fixed sentinel `"未設定"`;
otherwise `user_data.get("displayName", user_data.get("emailAddress", "不明"))`
is evaluated, raising `AttributeError` on a truthy non-dict value. -/
def getUserDisplayName (userData : JSON) : Except PyError JSON :=
  if userData.truthy = false then .ok (.str "未設定")
  else do
    let inner ← pyGetD userData "emailAddress" (.str "不明")
    pyGetD userData "displayName" inner

example : getUserDisplayName .null = .ok (.str "未設定") := rfl
example : getUserDisplayName (.obj []) = .ok (.str "未設定") := rfl
example : getUserDisplayName (.obj [("accountId", .str "x")]) = .ok (.str "不明") := rfl
example : getUserDisplayName (.obj [("displayName", .str "Alice")]) = .ok (.str "Alice") := rfl
example : getUserDisplayName (.obj [("emailAddress", .str "a@b.c")]) = .ok (.str "a@b.c") := rfl
example : getUserDisplayName (.str "x") = .error .attributeError := rfl

/-- Single decimal digit rendered as a character. -/
def digitChar : Nat → Char
  | 0 => '0' | 1 => '1' | 2 => '2' | 3 => '3' | 4 => '4'
  | 5 => '5' | 6 => '6' | 7 => '7' | 8 => '8' | 9 => '9'
  | _ => '?'

/-- Numeric value of a decimal digit character. -/
def digitVal (c : Char) : Nat := c.toNat - 48

/-- Two-digit zero-padded decimal rendering (strftime `%m`, `%d`, `%H`, `%M`). -/
def pad2 (n : Nat) : List Char := [digitChar (n / 10 % 10), digitChar (n % 10)]

/-- Four-digit zero-padded decimal rendering (strftime `%Y`; Python years stay
below 10000). -/
def pad4 (n : Nat) : List Char :=
  [digitChar (n / 1000 % 10), digitChar (n / 100 % 10), digitChar (n / 10 % 10),
   digitChar (n % 10)]

/-- Read exactly two decimal digits. -/
def parse2 : List Char → Option (Nat × List Char)
  | c1 :: c2 :: rest =>
    if c1.isDigit && c2.isDigit then some (10 * digitVal c1 + digitVal c2, rest)
    else none
  | _ => none

/-- Read exactly four decimal digits. -/
def parse4 : List Char → Option (Nat × List Char)
  | c1 :: c2 :: c3 :: c4 :: rest =>
    if c1.isDigit && c2.isDigit && c3.isDigit && c4.isDigit then
      some (1000 * digitVal c1 + 100 * digitVal c2 + 10 * digitVal c3 + digitVal c4, rest)
    else none
  | _ => none

/-- Consume one expected character. -/
def expectChar (c : Char) : List Char → Option (List Char)
  | x :: rest => if x = c then some rest else none
  | [] => none

/-- Gregorian leap-year rule, as used by Python's `datetime` validation. -/
def isLeapYear (y : Nat) : Bool := (y % 4 = 0 && y % 100 ≠ 0) || y % 400 = 0

/-- Number of days in a month of a given year. -/
def daysInMonth (y m : Nat) : Nat :=
  if m = 2 then (if isLeapYear y then 29 else 28)
  else if m = 4 || m = 6 || m = 9 || m = 11 then 30
  else 31

/-- The fields of a parsed `datetime` that its `strftime` display uses. -/
structure PyDateTime where
  year : Nat
  month : Nat
  day : Nat
  hour : Nat
  minute : Nat
  second : Nat

/-- Strip an optional fractional-seconds group: a dot followed by exactly
three or six digits (the forms `datetime.fromisoformat` accepts). A dot with
any other digit count is a parse error; input without a dot passes through. -/
def stripFrac : List Char → Option (List Char)
  | '.' :: rest =>
    let ds := rest.takeWhile Char.isDigit
    if ds.length = 3 || ds.length = 6 then some (rest.drop ds.length) else none
  | other => some other

/-- Validate an optional trailing UTC-offset group `±HH:MM`; the empty
remainder means no offset was given. -/
def parseTz : List Char → Bool
  | [] => true
  | s :: rest =>
    if s = '+' || s = '-' then
      match parse2 rest with
      | some (hh, r1) =>
        match expectChar ':' r1 with
        | some r2 =>
          match parse2 r2 with
          | some (mm, r3) => r3.isEmpty && hh ≤ 23 && mm ≤ 59
          | none => false
        | none => false
      | none => false
    else false

/-- Parse the time part `HH[:MM[:SS[.fff[fff]]]][±HH:MM]` of an ISO string,
with field range validation, returning (hour, minute, second). -/
def parseTime (s : List Char) : Option (Nat × Nat × Nat) :=
  match parse2 s with
  | none => none
  | some (hh, r1) =>
    if hh ≥ 24 then none
    else
      match r1 with
      | [] => some (hh, 0, 0)
      | ':' :: r2 =>
        match parse2 r2 with
        | none => none
        | some (mm, r3) =>
          if mm ≥ 60 then none
          else
            match r3 with
            | [] => some (hh, mm, 0)
            | ':' :: r4 =>
              match parse2 r4 with
              | none => none
              | some (ss, r5) =>
                if ss ≥ 60 then none
                else
                  match stripFrac r5 with
                  | none => none
                  | some r6 => if parseTz r6 then some (hh, mm, ss) else none
            | rest3 => if parseTz rest3 then some (hh, mm, 0) else none
      | rest1 => if parseTz rest1 then some (hh, 0, 0) else none

/-- Model of `datetime.fromisoformat`: `YYYY-MM-DD` optionally followed by a
one-character separator and a time part, with calendar validation; `none`
models a raised `ValueError`. -/
def fromisoformat (s : List Char) : Option PyDateTime :=
  match parse4 s with
  | none => none
  | some (y, r1) =>
    match expectChar '-' r1 with
    | none => none
    | some r2 =>
      match parse2 r2 with
      | none => none
      | some (m, r3) =>
        match expectChar '-' r3 with
        | none => none
        | some r4 =>
          match parse2 r4 with
          | none => none
          | some (d, r5) =>
            if y = 0 || m = 0 || m > 12 || d = 0 || d > daysInMonth y m then none
            else
              match r5 with
              | [] => some ⟨y, m, d, 0, 0, 0⟩
              | _sep :: timeChars =>
                match parseTime timeChars with
                | some (hh, mm, ss) => some ⟨y, m, d, hh, mm, ss⟩
                | none => none

/-- Model of `date_str.replace("Z", "+00:00")`: every occurrence of `Z` is
replaced by the six characters `+00:00`. -/
def replaceZ : List Char → List Char
  | [] => []
  | c :: rest =>
    if c = 'Z' then '+' :: '0' :: '0' :: ':' :: '0' :: '0' :: replaceZ rest
    else c :: replaceZ rest

/-- Model of `dt.strftime("%Y-%m-%d %H:%M")`. -/
def strftimeDisplay (dt : PyDateTime) : List Char :=
  pad4 dt.year ++ '-' :: (pad2 dt.month ++ '-' :: (pad2 dt.day ++ ' ' ::
    (pad2 dt.hour ++ ':' :: pad2 dt.minute)))

/-- Embedding of `JiraClient._format_date`: a falsy value (absent, `None`,
empty string) yields `""`; otherwise the string has its `Z`s replaced by
`+00:00` and is parsed with `fromisoformat`: on success the parsed datetime is
rendered in the fixed display format, and on any exception (parse failure, or
a non-string value lacking `.replace`) the original value is returned. -/
def formatDate (dateStr : JSON) : JSON :=
  if dateStr.truthy = false then .str ""
  else
    match dateStr with
    | .str s =>
      match fromisoformat (replaceZ s.data) with
      | some dt => .str (String.mk (strftimeDisplay dt))
      | none => .str s
    | other => other

example : formatDate .null = .str "" := rfl
example : formatDate (.str "") = .str "" := rfl
example : formatDate (.str "2024-03-05T14:30:00Z") = .str "2024-03-05 14:30" := rfl
example : formatDate (.str "2024-03-05T14:30:00.123+09:00") = .str "2024-03-05 14:30" := rfl
example : formatDate (.str "2024-03-05") = .str "2024-03-05 00:00" := rfl
example : formatDate (.str "not-a-date") = .str "not-a-date" := rfl
example : formatDate (.str "2024-02-30T00:00:00Z") = .str "2024-02-30T00:00:00Z" := rfl
example : formatDate (.num 5) = .num 5 := rfl

/-- The normalized issue shape produced by `JiraClient._format_issues` for one
raw record (the keys of the `formatted_issue` dictionary). -/
structure FormattedIssue where
  key : JSON
  summary : JSON
  status : JSON
  priority : JSON
  assignee : JSON
  reporter : JSON
  project : JSON
  issue_type : JSON
  created : JSON
  updated : JSON
  due_date : JSON
  url : String

/-- Embedding of the body of `JiraClient._format_issues` for one raw record:
each field is extracted defensively with `dict.get` chains, user fields go
through `_get_user_display_name`, date fields through `_format_date`, and the
URL is derived from the server URL and the record key. -/
def formatIssue (serverUrl : String) (issue : JSON) : Except PyError FormattedIssue := do
  let fields ← pyGetD issue "fields" (.obj [])
  let key ← pyGet issue "key"
  let summary ← pyGet fields "summary"
  let statusObj ← pyGetD fields "status" (.obj [])
  let status ← pyGet statusObj "name"
  let priorityObj ← pyGetD fields "priority" (.obj [])
  let priority ← pyGet priorityObj "name"
  let assigneeRaw ← pyGet fields "assignee"
  let assignee ← getUserDisplayName assigneeRaw
  let reporterRaw ← pyGet fields "reporter"
  let reporter ← getUserDisplayName reporterRaw
  let projectObj ← pyGetD fields "project" (.obj [])
  let project ← pyGet projectObj "name"
  let issuetypeObj ← pyGetD fields "issuetype" (.obj [])
  let issueType ← pyGet issuetypeObj "name"
  let created ← pyGet fields "created"
  let updated ← pyGet fields "updated"
  let duedate ← pyGet fields "duedate"
  pure ⟨key, summary, status, priority, assignee, reporter, project, issueType,
    formatDate created, formatDate updated, formatDate duedate,
    serverUrl ++ "/browse/" ++ pyStr key⟩

/-- Embedding of the loop of `JiraClient._format_issues`: records are
processed in order and appended to the result; an exception raised while
processing a record aborts the whole call. -/
def formatIssues (serverUrl : String) : List JSON → Except PyError (List FormattedIssue)
  | [] => .ok []
  | issue :: rest => do
    let f ← formatIssue serverUrl issue
    let fs ← formatIssues serverUrl rest
    pure (f :: fs)

example :
    formatIssue "u" (.obj []) =
      .ok ⟨.null, .null, .null, .null, .str "未設定", .str "未設定", .null, .null,
        .str "", .str "", .str "", "u/browse/None"⟩ := rfl
example :
    formatIssue "u" (.obj [("fields", .obj [("status", .null)])]) =
      .error .attributeError := rfl
example :
    formatIssue "u" (.obj [("fields", .obj [("assignee", .obj [])])]) =
      .ok ⟨.null, .null, .null, .null, .str "未設定", .str "未設定", .null, .null,
        .str "", .str "", .str "", "u/browse/None"⟩ := rfl

/-- Python truthiness of an `Optional[List[str]]` argument as tested by
`if status_filter:`—`None` and the empty list are falsy. -/
def optListTruthy : Option (List String) → Bool
  | none => false
  | some [] => false
  | some (_ :: _) => true

/-- Model of Python `sep.join(xs)`. -/
def pyJoin (sep : String) : List String → String
  | [] => ""
  | [x] => x
  | x :: xs => x ++ sep ++ pyJoin sep xs

/-- Embedding of the JQL construction in `JiraClient.get_my_issues`: start
from the assignee predicate, append a quoted status-IN clause when the status
filter is truthy, likewise for project keys, join with AND and append the sort
clause. -/
def buildMyIssuesJql (statusFilter projectKeys : Option (List String)) : String :=
  let parts := ["assignee = currentUser()"]
  let parts := if optListTruthy statusFilter then
      parts ++ ["status IN ('" ++ pyJoin "', '" (statusFilter.getD []) ++ "')"]
    else parts
  let parts := if optListTruthy projectKeys then
      parts ++ ["project IN ('" ++ pyJoin "', '" (projectKeys.getD []) ++ "')"]
    else parts
  pyJoin " AND " parts ++ " ORDER BY created DESC"

/-- Embedding of the JQL construction in `JiraClient.get_reported_by_me`. -/
def buildReportedByMeJql (statusFilter : Option (List String)) : String :=
  let parts := ["reporter = currentUser()"]
  let parts := if optListTruthy statusFilter then
      parts ++ ["status IN ('" ++ pyJoin "', '" (statusFilter.getD []) ++ "')"]
    else parts
  pyJoin " AND " parts ++ " ORDER BY created DESC"

/-- Embedding of the JQL literal in `JiraClient.get_recent_activity`. -/
def getRecentActivityJql (days : Nat) : String :=
  "(assignee = currentUser() OR reporter = currentUser()) AND updated >= -" ++
    toString days ++ "d ORDER BY updated DESC"

/-- Outcome of the GET request issued by `test_connection`: either a raised
`requests` exception (with its message) or a response with a status code. -/
inductive GetResult where
  | requestError (msg : String)
  | response (status : Nat)

/-- Embedding of `JiraClient.test_connection`: the Boolean return value
together with the ordered list of lines printed to standard output. -/
def testConnection : GetResult → Bool × List String
  | .requestError msg => (false, ["接続エラー: " ++ msg])
  | .response code =>
    let firstLine := "接続テストステータスコード: " ++ toString code
    if code = 401 then
      (false, [firstLine, "認証エラー: ユーザー名またはAPIトークンが正しくありません。"])
    else if code = 404 then
      (false, [firstLine, "URLが正しくありません。JiraサーバーのURLを確認してください。"])
    else if code ≠ 200 then
      (false, [firstLine, "接続に失敗しました。ステータスコード: " ++ toString code])
    else (true, [firstLine, "接続に成功しました。"])

/-- Outcome of the POST request issued by `_search_issues`: either a raised
`requests.RequestException` or a response with a status code and JSON body. -/
inductive HttpResult where
  | requestError
  | response (status : Nat) (body : JSON)

/-- Model of `response.raise_for_status()`: raises `requests.HTTPError` (a
`RequestException`) exactly for 4xx and 5xx status codes. -/
def raiseForStatus (status : Nat) : Except PyError Unit :=
  if 400 ≤ status && status < 600 then .error .requestException else .ok ()

/-- Python iteration over the value fed to the `for issue in issues` loop of
`_format_issues`: a JSON array yields its elements. -/
def asPyList : JSON → Except PyError (List JSON)
  | .arr xs => .ok xs
  | _ => .error .typeError

/-- Body of the `try` block of `JiraClient._search_issues`: POST, raise for
status, read `data.get("issues", [])` and format the records. -/
def searchIssuesTryBody (serverUrl : String) (resp : HttpResult) :
    Except PyError (List FormattedIssue) :=
  match resp with
  | .requestError => .error .requestException
  | .response status body => do
    let _ ← raiseForStatus status
    let issuesVal ← pyGetD body "issues" (.arr [])
    let issuesList ← asPyList issuesVal
    formatIssues serverUrl issuesList

/-- Embedding of `JiraClient._search_issues`: the transport is an oracle from
the JQL string and `max_results` to an `HttpResult`; `requests.RequestException`
is caught and converted to the empty list, any other exception propagates. -/
def searchIssues (serverUrl jql : String) (maxResults : Nat)
    (http : String → Nat → HttpResult) : Except PyError (List FormattedIssue) :=
  match searchIssuesTryBody serverUrl (http jql maxResults) with
  | .error .requestException => .ok []
  | other => other

/-- Embedding of `JiraClient.get_my_issues`: build the JQL, then search. -/
def getMyIssues (serverUrl : String) (statusFilter projectKeys : Option (List String))
    (maxResults : Nat) (http : String → Nat → HttpResult) :
    Except PyError (List FormattedIssue) :=
  searchIssues serverUrl (buildMyIssuesJql statusFilter projectKeys) maxResults http

/-- Embedding of `JiraClient.get_reported_by_me`. -/
def getReportedByMe (serverUrl : String) (statusFilter : Option (List String))
    (maxResults : Nat) (http : String → Nat → HttpResult) :
    Except PyError (List FormattedIssue) :=
  searchIssues serverUrl (buildReportedByMeJql statusFilter) maxResults http

/-- Embedding of `JiraClient.get_recent_activity`. -/
def getRecentActivity (serverUrl : String) (days maxResults : Nat)
    (http : String → Nat → HttpResult) : Except PyError (List FormattedIssue) :=
  searchIssues serverUrl (getRecentActivityJql days) maxResults http

example :
    buildMyIssuesJql (some ["To Do", "In Progress"]) none =
      "assignee = currentUser() AND status IN ('To Do', 'In Progress') ORDER BY created DESC" := rfl
example :
    buildMyIssuesJql none none = "assignee = currentUser() ORDER BY created DESC" := rfl
example :
    getRecentActivityJql 7 =
      "(assignee = currentUser() OR reporter = currentUser()) AND updated >= -7d ORDER BY updated DESC" := rfl

/-- One part of an event's content (`google.genai` `Part`): an optional text
payload. -/
structure Part where
  text : Option String

/-- Event content: an optional list of parts. -/
structure Content where
  parts : Option (List Part)

/-- Event actions: the escalation marker. -/
structure Actions where
  escalate : Bool

/-- One event yielded by `runner.run_async`, as inspected by
`call_agent_async`: the final-response marker, optional content, optional
actions, and optional error message. -/
structure Event where
  isFinal : Bool
  content : Option Content
  actions : Option Actions
  errorMessage : Option String

/-- Python `x or default` on an optional string: `None` and the empty string
are falsy and select the default. -/
def pyOrStr : Option String → String → String
  | some s, d => if s = "" then d else s
  | none, d => d

/-- The initial value of `final_response_text` in `call_agent_async`. -/
def defaultResponseText : String := "Agent did not produce a final response."

/-- Value taken by `final_response_text` when the loop breaks at a final event
that has no truthy content parts: the escalation branch, falling through to
the untouched default. -/
def escalationText (e : Event) : Option String :=
  match e.actions with
  | some a =>
    if a.escalate then
      some ("Agent escalated: " ++ pyOrStr e.errorMessage "No specific message.")
    else some defaultResponseText
  | none => some defaultResponseText

/-- Value taken by `final_response_text` when the loop breaks at a final
event: the text of the first content part when `event.content` and its parts
are truthy, otherwise the escalation branch. -/
def finalEventText (e : Event) : Option String :=
  match e.content with
  | some c =>
    match c.parts with
    | some (p :: _) => p.text
    | _ => escalationText e
  | none => escalationText e

/-- Embedding of the event loop of `call_agent_async`: consume events in
order, break at the first final event with its extracted text, and fall back
to the fixed default when the stream is exhausted. -/
def runTurn : List Event → Option String
  | [] => some defaultResponseText
  | e :: rest => if e.isFinal then finalEventText e else runTurn rest

example : runTurn [] = some "Agent did not produce a final response." := rfl
example :
    runTurn [⟨true, some ⟨some [⟨some "hi"⟩]⟩, none, none⟩] = some "hi" := rfl
example :
    runTurn [⟨true, none, some ⟨true⟩, none⟩] =
      some "Agent escalated: No specific message." := rfl
example :
    runTurn [⟨true, none, some ⟨true⟩, some "boom"⟩] =
      some "Agent escalated: boom" := rfl

/-- A nested display-name field (`status`, `priority`, `project`,
`issuetype`) is safe to extract when absent or an object; a present non-object
(such as `null`) makes `.get("name")` raise. -/
def nestedObjOk : Option JSON → Bool
  | none => true
  | some (.obj _) => true
  | _ => false

/-- A user field (`assignee`, `reporter`) is safe to extract when absent,
`null`, or an object; a present truthy non-object makes `.get` raise. -/
def userFieldOk : Option JSON → Bool
  | none => true
  | some .null => true
  | some (.obj _) => true
  | _ => false

/-- A raw record that is "missing any subset of its nested fields": an object
whose `fields` entry, when present, is an object in which every nested field
is either absent or of its well-formed shape. -/
def RecordShape : JSON → Bool
  | .obj top =>
    match lookupField top "fields" with
    | none => true
    | some (.obj f) =>
      nestedObjOk (lookupField f "status") && nestedObjOk (lookupField f "priority") &&
      nestedObjOk (lookupField f "project") && nestedObjOk (lookupField f "issuetype") &&
      userFieldOk (lookupField f "assignee") && userFieldOk (lookupField f "reporter")
    | some _ => false
  | _ => false

/-- Top-level key lookup on a raw record. -/
def topLookup (issue : JSON) (k : String) : Option JSON :=
  match issue with
  | .obj top => lookupField top k
  | _ => none

/-- The association list behind the record's `fields` entry, empty when the
entry is absent (mirroring `issue.get("fields", {})`). -/
def fieldsObjOf (issue : JSON) : List (String × JSON) :=
  match issue with
  | .obj top =>
    match lookupField top "fields" with
    | some (.obj f) => f
    | _ => []
  | _ => []

/-- Lookup of a nested field inside the record's `fields` object. -/
def nestedLookup (issue : JSON) (k : String) : Option JSON :=
  lookupField (fieldsObjOf issue) k

/-- Display name extracted from a user object: `displayName`, falling back to
`emailAddress`, falling back to the `"不明"` sentinel; the empty object is
falsy and yields the `"未設定"` sentinel. -/
def userNameOfObj : List (String × JSON) → JSON
  | [] => .str "未設定"
  | g :: gs =>
    (lookupField (g :: gs) "displayName").getD
      ((lookupField (g :: gs) "emailAddress").getD (.str "不明"))

/-- Closed form of `fields.get(k, {}).get("name")` on a well-shaped nested
field. -/
def nameOfOpt : Option JSON → JSON
  | some (.obj g) => (lookupField g "name").getD .null
  | _ => .null

/-- Closed form of `_get_user_display_name(fields.get(k))` on a well-shaped
user field. -/
def userOfOpt : Option JSON → JSON
  | some (.obj fs) => userNameOfObj fs
  | _ => .str "未設定"

/-- Closed form of the normalized issue produced by `_format_issues` for a
well-shaped record. -/
def normalForm (url : String) (issue : JSON) : FormattedIssue :=
  ⟨(topLookup issue "key").getD .null,
   (nestedLookup issue "summary").getD .null,
   nameOfOpt (nestedLookup issue "status"),
   nameOfOpt (nestedLookup issue "priority"),
   userOfOpt (nestedLookup issue "assignee"),
   userOfOpt (nestedLookup issue "reporter"),
   nameOfOpt (nestedLookup issue "project"),
   nameOfOpt (nestedLookup issue "issuetype"),
   formatDate ((nestedLookup issue "created").getD .null),
   formatDate ((nestedLookup issue "updated").getD .null),
   formatDate ((nestedLookup issue "duedate").getD .null),
   url ++ "/browse/" ++ pyStr ((topLookup issue "key").getD .null)⟩

theorem getUserDisplayName_null : getUserDisplayName .null = .ok (.str "未設定") := rfl

theorem getUserDisplayName_obj (fs : List (String × JSON)) :
    getUserDisplayName (.obj fs) = .ok (userNameOfObj fs) := by
  cases fs with
  | nil => rfl
  | cons g gs => rfl

/-- Extraction of a nested display-name field succeeds on a well-shaped value
and computes the closed form. -/
theorem nameChain (f : List (String × JSON)) (k : String)
    (h : nestedObjOk (lookupField f k) = true) :
    pyGet ((lookupField f k).getD (.obj [])) "name" = .ok (nameOfOpt (lookupField f k)) := by
  cases hv : lookupField f k with
  | none => rfl
  | some v =>
    rw [hv] at h
    cases v <;> simp_all [nestedObjOk, pyGet, nameOfOpt]

/-- Extraction of a user field succeeds on a well-shaped value and computes
the closed form. -/
theorem userChain (f : List (String × JSON)) (k : String)
    (h : userFieldOk (lookupField f k) = true) :
    getUserDisplayName ((lookupField f k).getD .null) = .ok (userOfOpt (lookupField f k)) := by
  cases hv : lookupField f k with
  | none => rfl
  | some v =>
    rw [hv] at h
    cases v <;>
      simp_all [userFieldOk, userOfOpt, getUserDisplayName_obj, getUserDisplayName_null]

@[simp] theorem exceptBind_ok {α β : Type} (a : α) (f : α → Except PyError β) :
    (Except.ok a : Except PyError α) >>= f = f a := rfl

@[simp] theorem exceptBind_err {α β : Type} (e : PyError) (f : α → Except PyError β) :
    (Except.error e : Except PyError α) >>= f = Except.error e := rfl

@[simp] theorem exceptMap_ok {α β : Type} (a : α) (f : α → β) :
    f <$> (Except.ok a : Except PyError α) = Except.ok (f a) := rfl

@[simp] theorem exceptMap_err {α β : Type} (e : PyError) (f : α → β) :
    f <$> (Except.error e : Except PyError α) = Except.error e := rfl

@[simp] theorem exceptPure_def {α : Type} (a : α) :
    (pure a : Except PyError α) = Except.ok a := rfl

@[simp] theorem pyGet_obj (fs : List (String × JSON)) (k : String) :
    pyGet (.obj fs) k = .ok ((lookupField fs k).getD .null) := rfl

@[simp] theorem pyGetD_obj (fs : List (String × JSON)) (k : String) (d : JSON) :
    pyGetD (.obj fs) k d = .ok ((lookupField fs k).getD d) := rfl

/-- On any record missing any subset of its nested fields, `_format_issues`
succeeds for that record and produces the closed-form normalized issue. -/
theorem formatIssue_ok_of_shape (url : String) (issue : JSON)
    (h : RecordShape issue = true) :
    formatIssue url issue = .ok (normalForm url issue) := by
  cases issue with
  | null => simp [RecordShape] at h
  | bool b => simp [RecordShape] at h
  | num n => simp [RecordShape] at h
  | str s => simp [RecordShape] at h
  | arr xs => simp [RecordShape] at h
  | obj top =>
    cases hf : lookupField top "fields" with
    | none =>
      simp [formatIssue, hf, lookupField, normalForm, topLookup, nestedLookup,
        fieldsObjOf, nameOfOpt, userOfOpt, getUserDisplayName_null]
    | some v =>
      cases v with
      | null => simp [RecordShape, hf] at h
      | bool b => simp [RecordShape, hf] at h
      | num n => simp [RecordShape, hf] at h
      | str s => simp [RecordShape, hf] at h
      | arr xs => simp [RecordShape, hf] at h
      | obj f =>
        simp only [RecordShape, hf, Bool.and_eq_true] at h
        obtain ⟨⟨⟨⟨⟨h1, h2⟩, h3⟩, h4⟩, h5⟩, h6⟩ := h
        simp [formatIssue, hf, normalForm, topLookup, nestedLookup,
          fieldsObjOf, nameChain f "status" h1, nameChain f "priority" h2,
          nameChain f "project" h3, nameChain f "issuetype" h4,
          userChain f "assignee" h5, userChain f "reporter" h6]

theorem strExt {a b : String} (h : a.data = b.data) : a = b := by
  cases a
  cases b
  exact congrArg String.mk h

theorem strData_append (a b : String) : (a ++ b).data = a.data ++ b.data := by
  cases a
  cases b
  rfl

theorem strAppend_assoc (a b c : String) : a ++ b ++ c = a ++ (b ++ c) := by
  apply strExt
  simp [strData_append]

/-- Events before the first final one are skipped without affecting the
outcome. -/
theorem runTurn_skip (pre l : List Event) (h : ∀ x ∈ pre, x.isFinal = false) :
    runTurn (pre ++ l) = runTurn l := by
  induction pre with
  | nil => rfl
  | cons e pre ih =>
    have he : e.isFinal = false := h e (List.mem_cons_self e pre)
    have h' : ∀ x ∈ pre, x.isFinal = false := fun x hx => h x (List.mem_cons_of_mem _ hx)
    simp [runTurn, he, ih h']

theorem digitChar_isDigit {a : Nat} (h : a ≤ 9) : (digitChar a).isDigit = true := by
  interval_cases a <;> rfl

theorem digitVal_digitChar {a : Nat} (h : a ≤ 9) : digitVal (digitChar a) = a := by
  interval_cases a <;> rfl

theorem digitChar_ne_Z (n : Nat) : digitChar n ≠ 'Z' := by
  unfold digitChar
  split <;> decide

theorem parse2_pad2 (n : Nat) (r : List Char) (h : n ≤ 99) :
    parse2 (pad2 n ++ r) = some (n, r) := by
  have ha : n / 10 % 10 ≤ 9 := by omega
  have hb : n % 10 ≤ 9 := by omega
  simp [pad2, parse2, digitChar_isDigit ha, digitChar_isDigit hb,
    digitVal_digitChar ha, digitVal_digitChar hb]
  omega

theorem parse4_pad4 (n : Nat) (r : List Char) (h : n ≤ 9999) :
    parse4 (pad4 n ++ r) = some (n, r) := by
  have h1 : n / 1000 % 10 ≤ 9 := by omega
  have h2 : n / 100 % 10 ≤ 9 := by omega
  have h3 : n / 10 % 10 ≤ 9 := by omega
  have h4 : n % 10 ≤ 9 := by omega
  simp [pad4, parse4, digitChar_isDigit h1, digitChar_isDigit h2, digitChar_isDigit h3,
    digitChar_isDigit h4, digitVal_digitChar h1, digitVal_digitChar h2,
    digitVal_digitChar h3, digitVal_digitChar h4]
  omega

theorem replaceZ_append (xs ys : List Char) :
    replaceZ (xs ++ ys) = replaceZ xs ++ replaceZ ys := by
  induction xs with
  | nil => rfl
  | cons c rest ih => by_cases hc : c = 'Z' <;> simp [replaceZ, hc, ih]

theorem replaceZ_pad2 (n : Nat) : replaceZ (pad2 n) = pad2 n := by
  simp [pad2, replaceZ, digitChar_ne_Z]

theorem replaceZ_pad4 (n : Nat) : replaceZ (pad4 n) = pad4 n := by
  simp [pad4, replaceZ, digitChar_ne_Z]

/-- The spec's "valid ISO-8601 string with a Z zone suffix":
`YYYY-MM-DDTHH:MM:SSZ` rendered from numeric components. -/
def isoZ (y m d h mi s : Nat) : List Char :=
  pad4 y ++ '-' :: (pad2 m ++ '-' :: (pad2 d ++ 'T' :: (pad2 h ++ ':' ::
    (pad2 mi ++ ':' :: (pad2 s ++ ['Z'])))))

theorem replaceZ_isoZ (y m d h mi s : Nat) :
    replaceZ (isoZ y m d h mi s) =
      pad4 y ++ '-' :: (pad2 m ++ '-' :: (pad2 d ++ 'T' :: (pad2 h ++ ':' ::
        (pad2 mi ++ ':' :: (pad2 s ++ ['+', '0', '0', ':', '0', '0']))))) := by
  simp [isoZ, replaceZ_append, replaceZ, digitChar_ne_Z, pad2, pad4]

theorem daysInMonth_le (y m : Nat) : daysInMonth y m ≤ 31 := by
  unfold daysInMonth
  split
  · split <;> omega
  · split <;> omega

theorem fromisoformat_isoZ (y m d h mi s : Nat) (hy1 : 1 ≤ y) (hy : y ≤ 9999)
    (hm1 : 1 ≤ m) (hm : m ≤ 12) (hd1 : 1 ≤ d) (hd : d ≤ daysInMonth y m)
    (hh : h ≤ 23) (hmi : mi ≤ 59) (hs : s ≤ 59) :
    fromisoformat (replaceZ (isoZ y m d h mi s)) = some ⟨y, m, d, h, mi, s⟩ := by
  have hdle : daysInMonth y m ≤ 31 := daysInMonth_le y m
  have hp4 : ∀ r, parse4 (pad4 y ++ r) = some (y, r) := fun r => parse4_pad4 y r (by omega)
  have hpm : ∀ r, parse2 (pad2 m ++ r) = some (m, r) := fun r => parse2_pad2 m r (by omega)
  have hpd : ∀ r, parse2 (pad2 d ++ r) = some (d, r) := fun r => parse2_pad2 d r (by omega)
  have hph : ∀ r, parse2 (pad2 h ++ r) = some (h, r) := fun r => parse2_pad2 h r (by omega)
  have hpmi : ∀ r, parse2 (pad2 mi ++ r) = some (mi, r) := fun r => parse2_pad2 mi r (by omega)
  have hps : ∀ r, parse2 (pad2 s ++ r) = some (s, r) := fun r => parse2_pad2 s r (by omega)
  have hy0 : ¬ (y = 0) := by omega
  have hm0 : ¬ (m = 0) := by omega
  have hm12 : ¬ (m > 12) := by omega
  have hd0 : ¬ (d = 0) := by omega
  have hdm : ¬ (d > daysInMonth y m) := by omega
  have hhh : ¬ (h ≥ 24) := by omega
  have hmm : ¬ (mi ≥ 60) := by omega
  have hss : ¬ (s ≥ 60) := by omega
  have htz : parseTz ['+', '0', '0', ':', '0', '0'] = true := rfl
  rw [replaceZ_isoZ]
  simp [fromisoformat, hp4, hpm, hpd, hph, hpmi, hps, expectChar, parseTime, stripFrac,
    htz, hy0, hm0, hm12, hd0, hdm, hhh, hmm, hss]

/-- C9: for role = assignee with status set {"To Do", "In Progress"} and no
project filter, `get_my_issues` constructs exactly the query
`assignee = currentUser() AND status IN ('To Do', 'In Progress') ORDER BY created DESC`. -/
theorem spec_C9 :
    buildMyIssuesJql (some ["To Do", "In Progress"]) none =
      "assignee = currentUser() AND status IN ('To Do', 'In Progress') ORDER BY created DESC" :=
  rfl

/-- C8: the recent-activity query wraps the role disjunction
`assignee = currentUser() OR reporter = currentUser()` in parentheses before
AND-joining it with the time-window clause, for every window length. -/
theorem spec_C8 (days : Nat) :
    getRecentActivityJql days =
      "(" ++ "assignee = currentUser() OR reporter = currentUser()" ++ ")" ++ " AND " ++
        "updated >= -" ++ toString days ++ "d ORDER BY updated DESC" :=
  rfl

/-- C6 counterexample: the connectivity check's result (its Boolean return
value) does not distinguish the auth-failure, not-found and generic-failure
cases — status codes 401, 404 and 500 all return the same value `false`. -/
theorem spec_C6_cex :
    (testConnection (.response 401)).1 = false ∧
    (testConnection (.response 404)).1 = false ∧
    (testConnection (.response 500)).1 = false ∧
    (testConnection (.response 200)).1 = true :=
  ⟨rfl, rfl, rfl, rfl⟩

/-- C6 (amended): the connectivity check returns `true` exactly for status
200 and `false` for 401, 404 and any other non-200; the four cases are
distinguished only in the printed diagnostic lines, which are pairwise
distinct, not in the Boolean result. -/
theorem spec_C6 :
    testConnection (.response 200) =
      (true, ["接続テストステータスコード: 200", "接続に成功しました。"]) ∧
    testConnection (.response 401) =
      (false, ["接続テストステータスコード: 401",
        "認証エラー: ユーザー名またはAPIトークンが正しくありません。"]) ∧
    testConnection (.response 404) =
      (false, ["接続テストステータスコード: 404",
        "URLが正しくありません。JiraサーバーのURLを確認してください。"]) ∧
    testConnection (.response 500) =
      (false, ["接続テストステータスコード: 500", "接続に失敗しました。ステータスコード: 500"]) ∧
    (["接続テストステータスコード: 200", "接続に成功しました。"] : List String) ≠
      ["接続テストステータスコード: 401",
        "認証エラー: ユーザー名またはAPIトークンが正しくありません。"] ∧
    (["接続テストステータスコード: 200", "接続に成功しました。"] : List String) ≠
      ["接続テストステータスコード: 404",
        "URLが正しくありません。JiraサーバーのURLを確認してください。"] ∧
    (["接続テストステータスコード: 200", "接続に成功しました。"] : List String) ≠
      ["接続テストステータスコード: 500", "接続に失敗しました。ステータスコード: 500"] ∧
    (["接続テストステータスコード: 401",
        "認証エラー: ユーザー名またはAPIトークンが正しくありません。"] : List String) ≠
      ["接続テストステータスコード: 404",
        "URLが正しくありません。JiraサーバーのURLを確認してください。"] ∧
    (["接続テストステータスコード: 401",
        "認証エラー: ユーザー名またはAPIトークンが正しくありません。"] : List String) ≠
      ["接続テストステータスコード: 500", "接続に失敗しました。ステータスコード: 500"] ∧
    (["接続テストステータスコード: 404",
        "URLが正しくありません。JiraサーバーのURLを確認してください。"] : List String) ≠
      ["接続テストステータスコード: 500", "接続に失敗しました。ステータスコード: 500"] := by
  refine ⟨rfl, rfl, rfl, rfl, ?_, ?_, ?_, ?_, ?_, ?_⟩ <;> decide

/-- Containment of one character sequence inside another as a contiguous
run, used to state that a value appears unmodified in a query string. -/
def hasSub (needle : List Char) : List Char → Bool
  | [] => needle.isEmpty
  | c :: rest => needle.isPrefixOf (c :: rest) || hasSub needle rest

/-- C4 counterexample: a status value containing the quote delimiter is
passed through unmodified into the query string — it is neither rejected nor
escaped, yielding a malformed IN-clause. -/
theorem spec_C4_cex :
    buildMyIssuesJql (some ["a'b"]) none =
      "assignee = currentUser() AND status IN ('a'b') ORDER BY created DESC" ∧
    hasSub "a'b".data (buildMyIssuesJql (some ["a'b"]) none).data = true :=
  ⟨rfl, rfl⟩

/-- C4 (amended): every non-empty status set is rendered by joining the
values with the fixed delimiter `', '` inside surrounding quotes; values
containing the quote delimiter are passed through unmodified (no rejection or
escaping happens). -/
theorem spec_C4 (s : String) (rest : List String) :
    buildMyIssuesJql (some (s :: rest)) none =
      "assignee = currentUser() AND status IN ('" ++ pyJoin "', '" (s :: rest) ++
        "') ORDER BY created DESC" := by
  apply strExt
  simp [buildMyIssuesJql, optListTruthy, pyJoin, strData_append, List.append_assoc]

/-- An HTTP outcome counting as "transport failure or non-success response":
either a raised `requests` exception or a 4xx/5xx status. -/
def failingTransport (r : HttpResult) : Prop :=
  r = .requestError ∨ ∃ st body, r = .response st body ∧ 400 ≤ st ∧ st < 600

theorem searchIssues_fail (url jql : String) (maxResults : Nat)
    (http : String → Nat → HttpResult) (h : failingTransport (http jql maxResults)) :
    searchIssues url jql maxResults http = .ok [] := by
  rcases h with h | ⟨st, body, h, h4, h6⟩
  · simp [searchIssues, searchIssuesTryBody, h]
  · have hc : (400 ≤ st && st < 600) = true := by simp [h4, h6]
    simp [searchIssues, searchIssuesTryBody, h, raiseForStatus, hc]

/-- C7: whenever the transport fails or returns a non-success status, the
search operation — and each convenience entry point built on it — returns the
empty list instead of propagating an exception. -/
theorem spec_C7 (serverUrl jql : String) (maxResults : Nat)
    (http : String → Nat → HttpResult) (sf pk : Option (List String)) (days : Nat) :
    (failingTransport (http jql maxResults) →
      searchIssues serverUrl jql maxResults http = .ok []) ∧
    (failingTransport (http (buildMyIssuesJql sf pk) maxResults) →
      getMyIssues serverUrl sf pk maxResults http = .ok []) ∧
    (failingTransport (http (buildReportedByMeJql sf) maxResults) →
      getReportedByMe serverUrl sf maxResults http = .ok []) ∧
    (failingTransport (http (getRecentActivityJql days) maxResults) →
      getRecentActivity serverUrl days maxResults http = .ok []) :=
  ⟨fun h => searchIssues_fail serverUrl jql maxResults http h,
   fun h => searchIssues_fail serverUrl (buildMyIssuesJql sf pk) maxResults http h,
   fun h => searchIssues_fail serverUrl (buildReportedByMeJql sf) maxResults http h,
   fun h => searchIssues_fail serverUrl (getRecentActivityJql days) maxResults http h⟩

/-- C7 witness: a raised request exception and a 500 response both yield the
empty list, for the raw search and for a convenience entry point. -/
theorem spec_C7_witness :
    searchIssues "https://jira.example.com" "q" 50 (fun _ _ => .requestError) = .ok [] ∧
    getMyIssues "https://jira.example.com" none none 50
      (fun _ _ => .response 500 .null) = .ok [] :=
  ⟨(spec_C7 "https://jira.example.com" "q" 50 (fun _ _ => .requestError) none none 7).1
      (Or.inl rfl),
   (spec_C7 "https://jira.example.com" "q" 50 (fun _ _ => .response 500 .null) none none 7).2.1
      (Or.inr ⟨500, .null, rfl, by omega, by omega⟩)⟩

/-- Truthiness of `event.content and event.content.parts`: the event carries
a content object with a non-empty parts list. -/
def hasContentParts (e : Event) : Bool :=
  match e.content with
  | some c =>
    match c.parts with
    | some (_ :: _) => true
    | _ => false
  | none => false

/-- C5: the turn runner terminates with a defined outcome on any finite event
sequence — the fixed default when no event is final; at the first final event
the remaining events are ignored; a final event with content parts yields the
first part's text; a final event without content parts carrying an escalation
yields the escalation text, with the fixed placeholder when the engine
supplies no message. -/
theorem spec_C5 :
    (∀ evs : List Event, (∀ e ∈ evs, e.isFinal = false) →
      runTurn evs = some "Agent did not produce a final response.") ∧
    (∀ (pre : List Event) (e : Event) (rest rest' : List Event),
      (∀ x ∈ pre, x.isFinal = false) → e.isFinal = true →
      runTurn (pre ++ e :: rest) = runTurn (pre ++ e :: rest')) ∧
    (∀ (pre : List Event) (e : Event) (rest : List Event) (c : Content) (p : Part)
      (ps : List Part), (∀ x ∈ pre, x.isFinal = false) → e.isFinal = true →
      e.content = some c → c.parts = some (p :: ps) →
      runTurn (pre ++ e :: rest) = p.text) ∧
    (∀ (pre : List Event) (e : Event) (rest : List Event) (a : Actions),
      (∀ x ∈ pre, x.isFinal = false) → e.isFinal = true → hasContentParts e = false →
      e.actions = some a → a.escalate = true →
      runTurn (pre ++ e :: rest) =
        some ("Agent escalated: " ++ pyOrStr e.errorMessage "No specific message.")) ∧
    (∀ (pre : List Event) (e : Event) (rest : List Event) (a : Actions),
      (∀ x ∈ pre, x.isFinal = false) → e.isFinal = true → hasContentParts e = false →
      e.actions = some a → a.escalate = true → e.errorMessage = none →
      runTurn (pre ++ e :: rest) = some "Agent escalated: No specific message.") := by
  have hesc : ∀ (e : Event) (a : Actions), e.isFinal = true → hasContentParts e = false →
      e.actions = some a → a.escalate = true →
      finalEventText e =
        some ("Agent escalated: " ++ pyOrStr e.errorMessage "No specific message.") := by
    intro e a hf hcp ha hae
    cases hco : e.content with
    | none => simp [finalEventText, hco, escalationText, ha, hae]
    | some c =>
      cases hp : c.parts with
      | none => simp [finalEventText, hco, hp, escalationText, ha, hae]
      | some ps =>
        cases ps with
        | nil => simp [finalEventText, hco, hp, escalationText, ha, hae]
        | cons q qs => simp [hasContentParts, hco, hp] at hcp
  refine ⟨?_, ?_, ?_, ?_, ?_⟩
  · intro evs h
    have h2 := runTurn_skip evs [] h
    rw [List.append_nil] at h2
    exact h2.trans rfl
  · intro pre e rest rest' hpre hf
    rw [runTurn_skip pre _ hpre, runTurn_skip pre _ hpre]
    simp [runTurn, hf]
  · intro pre e rest c p ps hpre hf hc hp
    rw [runTurn_skip pre _ hpre]
    simp [runTurn, hf, finalEventText, hc, hp]
  · intro pre e rest a hpre hf hcp ha hae
    rw [runTurn_skip pre _ hpre]
    simp [runTurn, hf, hesc e a hf hcp ha hae]
  · intro pre e rest a hpre hf hcp ha hae hmsg
    rw [runTurn_skip pre _ hpre]
    simp [runTurn, hf, hesc e a hf hcp ha hae, hmsg, pyOrStr]

/-- C5 witness: a non-final event followed by a final content event yields
that content and ignores the trailing events; an all-non-final stream yields
the default text; a final escalation event without message yields the
placeholder text. -/
theorem spec_C5_witness :
    runTurn [⟨false, none, none, none⟩,
      ⟨true, some ⟨some [⟨some "hello"⟩, ⟨none⟩]⟩, none, none⟩,
      ⟨true, some ⟨some [⟨some "ignored"⟩]⟩, none, none⟩] = some "hello" ∧
    runTurn [⟨false, none, none, none⟩] = some "Agent did not produce a final response." ∧
    runTurn [⟨true, none, some ⟨true⟩, none⟩] =
      some "Agent escalated: No specific message." := by
  refine ⟨?_, ?_, ?_⟩
  · exact spec_C5.2.2.1 [⟨false, none, none, none⟩]
      ⟨true, some ⟨some [⟨some "hello"⟩, ⟨none⟩]⟩, none, none⟩
      [⟨true, some ⟨some [⟨some "ignored"⟩]⟩, none, none⟩]
      ⟨some [⟨some "hello"⟩, ⟨none⟩]⟩ ⟨some "hello"⟩ [⟨none⟩]
      (by intro x hx; simp at hx; rw [hx]) rfl rfl rfl
  · exact spec_C5.1 [⟨false, none, none, none⟩] (by intro x hx; simp at hx; rw [hx])
  · exact spec_C5.2.2.2.2 [] ⟨true, none, some ⟨true⟩, none⟩ [] ⟨true⟩
      (by intro x hx; simp at hx) rfl rfl rfl rfl rfl

/-- C1 counterexample: a record whose `assignee` is present but an empty
object normalizes the assignee to the "unset" sentinel `未設定`, not to the
"unknown" sentinel `不明` — Python treats the empty dict as falsy, exactly
like an absent field. -/
theorem spec_C1_cex :
    formatIssue "u" (.obj [("fields", .obj [("assignee", .obj [])])]) =
      .ok ⟨.null, .null, .null, .null, .str "未設定", .str "未設定", .null, .null,
        .str "", .str "", .str "", "u/browse/None"⟩ ∧
    JSON.str "未設定" ≠ JSON.str "不明" := by
  refine ⟨rfl, ?_⟩
  intro hc
  injection hc with h2
  exact absurd h2 (by decide)

/-- C1 (amended): an absent `assignee`/`reporter` field and a present-but-
empty user object both normalize to the "unset" sentinel `未設定`; the
distinct "unknown" sentinel `不明` is produced when the user object is
non-empty but carries neither a display name nor an email address. -/
theorem spec_C1 (url : String) (issue : JSON) (h : RecordShape issue = true) :
    ∃ out, formatIssue url issue = .ok out ∧
      (nestedLookup issue "assignee" = none → out.assignee = .str "未設定") ∧
      (nestedLookup issue "assignee" = some (.obj []) → out.assignee = .str "未設定") ∧
      (∀ g gs, nestedLookup issue "assignee" = some (.obj (g :: gs)) →
        lookupField (g :: gs) "displayName" = none →
        lookupField (g :: gs) "emailAddress" = none → out.assignee = .str "不明") ∧
      (nestedLookup issue "reporter" = none → out.reporter = .str "未設定") ∧
      (nestedLookup issue "reporter" = some (.obj []) → out.reporter = .str "未設定") ∧
      (∀ g gs, nestedLookup issue "reporter" = some (.obj (g :: gs)) →
        lookupField (g :: gs) "displayName" = none →
        lookupField (g :: gs) "emailAddress" = none → out.reporter = .str "不明") ∧
      JSON.str "未設定" ≠ JSON.str "不明" := by
  refine ⟨normalForm url issue, formatIssue_ok_of_shape url issue h,
    ?_, ?_, ?_, ?_, ?_, ?_, ?_⟩
  · intro ha
    simp [normalForm, ha, userOfOpt]
  · intro ha
    simp [normalForm, ha, userOfOpt, userNameOfObj]
  · intro g gs ha hdn hem
    simp [normalForm, ha, userOfOpt, userNameOfObj, hdn, hem]
  · intro ha
    simp [normalForm, ha, userOfOpt]
  · intro ha
    simp [normalForm, ha, userOfOpt, userNameOfObj]
  · intro g gs ha hdn hem
    simp [normalForm, ha, userOfOpt, userNameOfObj, hdn, hem]
  · intro hc
    injection hc with h2
    exact absurd h2 (by decide)

/-- C1 witness: a record with `assignee: {}` and a reporter object carrying
neither display name nor email normalizes to the unset and unknown sentinels
respectively. -/
theorem spec_C1_witness :
    ∃ out, formatIssue "u"
        (.obj [("fields", .obj [("assignee", .obj []),
          ("reporter", .obj [("accountId", .str "x")])])]) = .ok out ∧
      out.assignee = .str "未設定" ∧ out.reporter = .str "不明" := by
  obtain ⟨out, hok, _, hemp, _, _, _, hrep, _⟩ := spec_C1 "u"
    (.obj [("fields", .obj [("assignee", .obj []),
      ("reporter", .obj [("accountId", .str "x")])])]) rfl
  exact ⟨out, hok, hemp rfl, hrep ("accountId", .str "x") [] rfl rfl rfl⟩

/-- C2: on any raw record missing any subset of its nested fields,
normalization succeeds with a well-formed issue in which every missing field
takes its defined fallback — `null` for name fields, the unset sentinel for
user fields, and the empty string for dates. -/
theorem spec_C2 (url : String) (issue : JSON) (h : RecordShape issue = true) :
    ∃ out, formatIssue url issue = .ok out ∧
      (topLookup issue "key" = none → out.key = .null) ∧
      (nestedLookup issue "summary" = none → out.summary = .null) ∧
      (nestedLookup issue "status" = none → out.status = .null) ∧
      (nestedLookup issue "priority" = none → out.priority = .null) ∧
      (nestedLookup issue "assignee" = none → out.assignee = .str "未設定") ∧
      (nestedLookup issue "reporter" = none → out.reporter = .str "未設定") ∧
      (nestedLookup issue "project" = none → out.project = .null) ∧
      (nestedLookup issue "issuetype" = none → out.issue_type = .null) ∧
      (nestedLookup issue "created" = none → out.created = .str "") ∧
      (nestedLookup issue "updated" = none → out.updated = .str "") ∧
      (nestedLookup issue "duedate" = none → out.due_date = .str "") := by
  refine ⟨normalForm url issue, formatIssue_ok_of_shape url issue h,
    ?_, ?_, ?_, ?_, ?_, ?_, ?_, ?_, ?_, ?_, ?_⟩ <;> intro ha <;>
    simp [normalForm, ha, nameOfOpt, userOfOpt, formatDate, JSON.truthy]

/-- C2 witness: the empty record normalizes with every fallback in place. -/
theorem spec_C2_witness :
    ∃ out, formatIssue "https://jira.example.com" (.obj []) = .ok out ∧
      out.status = .null ∧ out.assignee = .str "未設定" ∧ out.created = .str "" := by
  obtain ⟨out, hok, _, _, hst, _, has, _, _, _, hcr, _, _⟩ :=
    spec_C2 "https://jira.example.com" (.obj []) rfl
  exact ⟨out, hok, hst rfl, has rfl, hcr rfl⟩

/-- C10 counterexample: a list containing a record whose `status` field is
present but `null` makes the whole normalization raise (`None.get`), so no
list — of any length — is returned for that input. -/
theorem spec_C10_cex :
    ¬ ∃ out, formatIssues "u" [.obj [("fields", .obj [("status", .null)])]] = .ok out := by
  rintro ⟨out, h⟩
  have he : formatIssues "u" [.obj [("fields", .obj [("status", .null)])]] =
      .error .attributeError := rfl
  rw [he] at h
  exact Except.noConfusion h

/-- C10 (amended): whenever normalization returns a list at all, it has
exactly the length of the input and the issue at each position is the
normalization of the raw record at that same position — no record is
dropped, duplicated or reordered; a malformed record instead makes the call
raise rather than return a shorter list. -/
theorem spec_C10 (url : String) (issues : List JSON) (out : List FormattedIssue)
    (h : formatIssues url issues = .ok out) :
    out.length = issues.length ∧
    ∀ i (h1 : i < issues.length) (h2 : i < out.length),
      formatIssue url issues[i] = .ok out[i] := by
  induction issues generalizing out with
  | nil =>
    simp [formatIssues] at h
    subst h
    exact ⟨rfl, fun i h1 _ => absurd h1 (by simp)⟩
  | cons x xs ih =>
    cases hx : formatIssue url x with
    | error e => simp [formatIssues, hx] at h
    | ok f =>
      cases hxs : formatIssues url xs with
      | error e => simp [formatIssues, hx, hxs] at h
      | ok fs =>
        simp [formatIssues, hx, hxs] at h
        subst h
        obtain ⟨hlen, hpos⟩ := ih fs hxs
        refine ⟨by simp [hlen], ?_⟩
        intro i h1 h2
        cases i with
        | zero => simpa using hx
        | succ n =>
          simp only [List.getElem_cons_succ]
          exact hpos n (by simpa using h1) (by simpa using h2)

/-- C10 witness: a singleton list normalizes to a singleton list whose sole
element is the normalization of the sole input record. -/
theorem spec_C10_witness :
    formatIssue "u" (.obj []) =
      .ok ⟨.null, .null, .null, .null, .str "未設定", .str "未設定", .null, .null,
        .str "", .str "", .str "", "u/browse/None"⟩ := by
  have h := spec_C10 "u" [.obj []]
    [⟨.null, .null, .null, .null, .str "未設定", .str "未設定", .null, .null,
      .str "", .str "", .str "", "u/browse/None"⟩] rfl
  simpa using h.2 0 (by decide) (by decide)

/-- C3 counterexample: a non-empty unparseable date string is returned
unchanged by the date formatter — the `except` branch returns the original
input, not the empty string the claim specifies. -/
theorem spec_C3_cex :
    formatDate (.str "not-a-date") = .str "not-a-date" ∧
    JSON.str "not-a-date" ≠ JSON.str "" := by
  refine ⟨rfl, ?_⟩
  intro hc
  injection hc with h2
  exact absurd h2 (by decide)

/-- C3 (amended): a valid ISO-8601 `YYYY-MM-DDTHH:MM:SS` timestamp with a `Z`
zone suffix is parsed and reformatted to the fixed `YYYY-MM-DD HH:MM` display
format; an absent or empty input yields the empty string; the formatter never
raises — but a non-empty unparseable input is returned unchanged rather than
mapped to the empty string. -/
theorem spec_C3 :
    (∀ y m d h mi s : Nat, 1 ≤ y → y ≤ 9999 → 1 ≤ m → m ≤ 12 → 1 ≤ d →
      d ≤ daysInMonth y m → h ≤ 23 → mi ≤ 59 → s ≤ 59 →
      formatDate (.str (String.mk (isoZ y m d h mi s))) =
        .str (String.mk (strftimeDisplay ⟨y, m, d, h, mi, s⟩))) ∧
    (formatDate .null = .str "" ∧ formatDate (.str "") = .str "") ∧
    (∀ s : String, ∃ t : String, formatDate (.str s) = .str t) ∧
    (∀ s : String, s ≠ "" → fromisoformat (replaceZ s.data) = none →
      formatDate (.str s) = .str s) := by
  refine ⟨?_, ⟨rfl, rfl⟩, ?_, ?_⟩
  · intro y m d h mi s hy1 hy hm1 hm hd1 hd hh hmi hs
    have hiso := fromisoformat_isoZ y m d h mi s hy1 hy hm1 hm hd1 hd hh hmi hs
    have hne : String.mk (isoZ y m d h mi s) ≠ "" := by
      intro hcon
      exact List.noConfusion (congrArg String.data hcon)
    simp [formatDate, JSON.truthy, hne, hiso]
  · intro s
    by_cases hs : s = ""
    · subst hs
      exact ⟨"", rfl⟩
    · cases hp : fromisoformat (replaceZ s.data) with
      | none => exact ⟨s, by simp [formatDate, JSON.truthy, hs, hp]⟩
      | some dt =>
        exact ⟨String.mk (strftimeDisplay dt), by simp [formatDate, JSON.truthy, hs, hp]⟩
  · intro s hs hp
    simp [formatDate, JSON.truthy, hs, hp]

/-- C3 witness: a concrete ISO timestamp with `Z` suffix reformats to the
display format, and a concrete garbage string passes through unchanged. -/
theorem spec_C3_witness :
    formatDate (.str "2024-03-05T14:30:00Z") = .str "2024-03-05 14:30" ∧
    formatDate (.str "hello world") = .str "hello world" := by
  constructor
  · have h := spec_C3.1 2024 3 5 14 30 0 (by decide) (by decide) (by decide) (by decide)
      (by decide) (by decide) (by decide) (by decide) (by decide)
    have e1 : String.mk (isoZ 2024 3 5 14 30 0) = "2024-03-05T14:30:00Z" := rfl
    have e2 : String.mk (strftimeDisplay ⟨2024, 3, 5, 14, 30, 0⟩) = "2024-03-05 14:30" := rfl
    rw [e1, e2] at h
    exact h
  · exact spec_C3.2.2.2 "hello world" (by decide) rfl

end Sebastian
